import Mathlib

/-
Verification of the flight-dynamics and terrain-generation core of
`src/lunar_lander.py` (classes `Lander` and `Terrain`).

Modelling conventions:
* Python floats are modelled as exact rationals (ℚ); Python ints as ℤ.
* The float trigonometry pipeline of `Lander.update_telemetry`
  (lines 232-234: `radians(...)`, `cos`, `sin`, each value truncated to
  3 decimal places) and `math.sqrt` (line 262) produce real numbers that
  have no computable rational embedding, so they are abstracted as an
  explicit oracle (`NumOracle`).  Every theorem below is proved for an
  arbitrary oracle, hence in particular for the one realized by the
  Python math library.
* `random.randint` calls are modelled by an explicit stream of drawn
  values; a draw is valid only when the drawn value lies in the closed
  range of the corresponding `randint(lo, hi)` call.  `Option` failure
  covers both an exhausted/invalid stream (not a possible execution)
  and a raising `randint` call (`lo > hi`).
* `pygame` surface handling (`current_surface`, `_get_ship_surface`,
  `pygame.transform.rotate`) is rendering-only and carries no numeric
  state read by the dynamics, so it is omitted from the state.
-/

/-- GRAVITY constant from line 26 of the source (`GRAVITY = 0.05`). -/
def GRAVITY : ℚ := 1/20

/-- FUEL constant from line 27 of the source (`FUEL = 100`). -/
def FUEL : ℚ := 100

/-- Oracle abstracting the non-rational float functions used by
`Lander.update_telemetry`: `xmul a` stands for the truncated
`cos(radians(a))` pipeline of lines 232-233, `ymul a` for the truncated
`sin(-radians(a))` of line 234 (both as functions of the adjusted degree
value `a`), and `sqrtq v` for `math.sqrt(v)` of line 262. -/
structure NumOracle where
  xmul : ℚ → ℚ
  ymul : ℚ → ℚ
  sqrtq : ℚ → ℚ

/-- Numeric state of the `Lander` object (lines 173-190).  The pygame
drawing surface is omitted (rendering only).  `speed` is `none` before
the first `update_telemetry` call: the Python constructor does not set
the attribute. -/
structure LanderState where
  shipx : ℚ
  shipy : ℚ
  xspeed : ℚ
  yspeed : ℚ
  thrust : ℚ
  thrust_level : ℤ
  degree : ℚ
  degree_change : ℚ
  fuel : ℚ
  thrust_fuel_burn : ℚ
  spin_fuel_burn : ℚ
  xdim : ℚ
  ydim : ℚ
  pause : Bool
  speed : Option ℚ
deriving DecidableEq

/-- Initial lander state, from `Lander.__init__` (lines 173-190). -/
def initLander (xdim ydim : ℚ) : LanderState :=
  { shipx := 250, shipy := 150, xspeed := 0, yspeed := 0,
    thrust := 0, thrust_level := 0, degree := 0, degree_change := 0,
    fuel := FUEL, thrust_fuel_burn := 0, spin_fuel_burn := 0,
    xdim := xdim, ydim := ydim, pause := false, speed := none }

/-- `Lander.THRUST_MAP` (lines 110-116), a dict keyed 0..4; any other
key raises `KeyError`, modelled by `none`. -/
def thrustMap (level : ℤ) : Option ℚ :=
  if level = 0 then some 0
  else if level = 1 then some (GRAVITY * (9/10))
  else if level = 2 then some (GRAVITY * 2)
  else if level = 3 then some (GRAVITY * 5)
  else if level = 4 then some (GRAVITY * 10)
  else none

/-- Degree wraparound of lines 220-224: add the turn rate, subtract 360
once if the result exceeds 360, add 360 once if it is negative. -/
def normalizeDegree (d : ℚ) : ℚ :=
  let d1 := if d > 360 then d - 360 else d
  if d1 < 0 then d1 + 360 else d1

/-- Thrust-direction angle of lines 228-231: heading plus 90, wrapped
below 360 (note `>=` here, unlike the `>` of the heading wrap). -/
def thrustAngle (degree : ℚ) : ℚ :=
  let a := degree + 90
  if a ≥ 360 then a - 360 else a

/-- Velocity components and turn rate manipulated by the four
boundary-bounce checks of lines 244-259. -/
structure Kin where
  vx : ℚ
  vy : ℚ
  dc : ℚ

/-- Bottom-edge bounce (lines 244-247): fires when the ship center is
below the screen and still moving down. -/
def bounceBottom (ydim shipy : ℚ) (k : Kin) : Kin :=
  if shipy > ydim ∧ k.vy > 0 then
    { vx := k.vx * (7/10), vy := k.vy * (7/10) * (-1), dc := k.dc * (1/2) }
  else k

/-- Top-edge bounce (lines 248-251). -/
def bounceTop (shipy : ℚ) (k : Kin) : Kin :=
  if shipy < 0 ∧ k.vy < 0 then
    { vx := k.vx * (7/10), vy := k.vy * (7/10) * (-1), dc := k.dc * (1/2) }
  else k

/-- Right-edge bounce (lines 252-255). -/
def bounceRight (xdim shipx : ℚ) (k : Kin) : Kin :=
  if shipx > xdim ∧ k.vx > 0 then
    { vx := k.vx * (7/10) * (-1), vy := k.vy * (7/10), dc := k.dc * (1/2) }
  else k

/-- Left-edge bounce (lines 256-259). -/
def bounceLeft (shipx : ℚ) (k : Kin) : Kin :=
  if shipx < 0 ∧ k.vx < 0 then
    { vx := k.vx * (7/10) * (-1), vy := k.vy * (7/10), dc := k.dc * (1/2) }
  else k

/-- Thrust magnitude after the fuel gate of lines 212-213: the looked-up
value `t0` unless the tank is empty. -/
def gatedThrust (s : LanderState) (t0 : ℚ) : ℚ :=
  if s.fuel ≤ 0 then 0 else t0

/-- Heading after the wraparound of lines 220-224. -/
def headingAfter (s : LanderState) : ℚ :=
  normalizeDegree (s.degree + s.degree_change)

/-- Horizontal velocity after the thrust decomposition of lines 233 and
237, before the boundary bounces. -/
def vxMid (o : NumOracle) (s : LanderState) (t0 : ℚ) : ℚ :=
  s.xspeed + gatedThrust s t0 * o.xmul (thrustAngle (headingAfter s))

/-- Vertical velocity after the thrust decomposition of lines 234 and
238 and the gravity increment of line 241, before the boundary
bounces. -/
def vyMid (o : NumOracle) (s : LanderState) (t0 : ℚ) : ℚ :=
  (s.yspeed + gatedThrust s t0 * o.ymul (thrustAngle (headingAfter s))) + GRAVITY

/-- Body of `Lander.update_telemetry` (lines 202-273) after the
`THRUST_MAP` lookup succeeded with value `t0`: zero the thrust when fuel
is exhausted (lines 212-213), wrap the heading (220-224), decompose the
thrust along the adjusted angle and add gravity (228-241, the `vxMid` /
`vyMid` velocities), run the four edge bounces in source order
(244-259), recompute speed (262), integrate the position (265-266), and
burn and clamp fuel (269-271). -/
def updateCore (o : NumOracle) (s : LanderState) (t0 : ℚ) : LanderState :=
  let k0 : Kin :=
    { vx := vxMid o s t0, vy := vyMid o s t0, dc := s.degree_change }
  let k := bounceLeft s.shipx (bounceRight s.xdim s.shipx
             (bounceTop s.shipy (bounceBottom s.ydim s.shipy k0)))
  let fuel1 := s.fuel - s.thrust_fuel_burn - s.spin_fuel_burn
  { s with
    thrust := gatedThrust s t0,
    degree := headingAfter s,
    degree_change := k.dc,
    xspeed := k.vx,
    yspeed := k.vy,
    speed := some (o.sqrtq (k.vx ^ 2 + k.vy ^ 2)),
    shipx := s.shipx + k.vx,
    shipy := s.shipy + k.vy,
    fuel := if fuel1 < 0 then 0 else fuel1 }

/-- `Lander.update_telemetry` (lines 202-273).  The dict lookup
`self.THRUST_MAP[self.thrust_level]` on line 210 raises for a level
outside 0..4; this is the only failing operation, hence the `Option`. -/
def update_telemetry (o : NumOracle) (s : LanderState) : Option LanderState :=
  (thrustMap s.thrust_level).map (updateCore o s)

/-- `Lander.thrust_up` (lines 275-280): raise the burn rate and the
level, then wrap both to zero if the level passed 4. -/
def thrust_up (s : LanderState) : LanderState :=
  let tfb := s.thrust_fuel_burn + 1/20
  let lvl := s.thrust_level + 1
  if lvl > 4 then { s with thrust_level := 0, thrust_fuel_burn := 0 }
  else { s with thrust_level := lvl, thrust_fuel_burn := tfb }

/-- `Lander.thrust_down` (lines 282-287): lower both, clamping at zero. -/
def thrust_down (s : LanderState) : LanderState :=
  let tfb := s.thrust_fuel_burn - 1/20
  let lvl := s.thrust_level - 1
  if lvl < 0 then { s with thrust_level := 0, thrust_fuel_burn := 0 }
  else { s with thrust_level := lvl, thrust_fuel_burn := tfb }

/-- `Lander.spin_left` (lines 289-292); a no-op when fuel is gone. -/
def spin_left (s : LanderState) : LanderState :=
  if s.fuel > 0 then { s with degree_change := 5, spin_fuel_burn := 1/1000 }
  else s

/-- `Lander.spin_right` (lines 294-297). -/
def spin_right (s : LanderState) : LanderState :=
  if s.fuel > 0 then { s with degree_change := -5, spin_fuel_burn := 1/1000 }
  else s

/-- `Lander.spin_stop` (lines 299-302). -/
def spin_stop (s : LanderState) : LanderState :=
  if s.fuel > 0 then { s with degree_change := 0, spin_fuel_burn := 0 }
  else s

/-- The discrete pilot commands plus the per-tick `update_telemetry`. -/
inductive Cmd
  | thrustUp
  | thrustDown
  | spinLeft
  | spinRight
  | spinStop
  | advance
deriving DecidableEq

/-- One command applied to a state; only `advance` can fail. -/
def stepCmd (o : NumOracle) (c : Cmd) (s : LanderState) : Option LanderState :=
  match c with
  | .thrustUp => some (thrust_up s)
  | .thrustDown => some (thrust_down s)
  | .spinLeft => some (spin_left s)
  | .spinRight => some (spin_right s)
  | .spinStop => some (spin_stop s)
  | .advance => update_telemetry o s

/-- A finite sequence of commands run left to right. -/
def runCmds (o : NumOracle) (s : LanderState) : List Cmd → Option LanderState
  | [] => some s
  | c :: cs => (stepCmd o c s).bind (fun s' => runCmds o s' cs)

/-- `n` consecutive `update_telemetry` calls with no commands issued. -/
def advanceN (o : NumOracle) : ℕ → LanderState → Option LanderState
  | 0, s => some s
  | n + 1, s => (advanceN o n s).bind (update_telemetry o)

/-- State stored by `Terrain.__init__` (lines 43-53). -/
structure Terrain where
  type : String
  terrain : Option (List (ℤ × ℚ))
  landing_zones : ℤ
  xdim : ℤ
  ydim : ℤ
deriving DecidableEq

/-- `Terrain.__init__` (lines 43-53).  The `Option` is the model of a
constructor that could raise; the source performs no validation of any
argument, so construction always succeeds and merely stores the fields
(the cached `terrain` starts out as `None`). -/
def Terrain.init (whe : String) (xdim ydim landing_zones : ℤ) : Option Terrain :=
  some { type := whe, terrain := none, landing_zones := landing_zones,
         xdim := xdim, ydim := ydim }

/-- `sys.maxsize`, used as the sentinel threshold on line 87. -/
def maxsize : ℤ := 9223372036854775807

/-- The y adjustment at the top of the generation loop (lines 75-78):
add 100 whenever `ty` is below `ydim`, then subtract 100 whenever the
result is above `ydim`. -/
def biasCorrect (ydim ty : ℚ) : ℚ :=
  let t1 := if ty < ydim then ty + 100 else ty
  if t1 > ydim then t1 - 100 else t1

/-- Popping the next flat-segment threshold (lines 84-87): the next list
element, or `sys.maxsize` once the list is exhausted. -/
def popThreshold : List ℤ → ℤ × List ℤ
  | [] => (maxsize, [])
  | n :: r => (n, r)

/-- The `while True` loop of `Terrain._gen_terrain` (lines 74-92),
consuming two stream values per iteration for `randint(40, 100)` and
`randint(-100, 100)` (lines 80-81).  `tx ty` are the current point,
`lasty` the pre-adjustment y of the previous iteration (line 92),
`nxt`/`rem` the next flat threshold and the remaining ones.  When the
next threshold has been passed, y is reset to `lasty` and the following
threshold is popped (lines 82-87); when `tx` passes `xdim` it is clamped
and the final point appended (lines 88-91). -/
def genLoop (xd : ℤ) (yd : ℚ) (tx : ℤ) (ty lasty : ℚ) (nxt : ℤ)
    (rem : List ℤ) : List ℤ → Option (List (ℤ × ℚ))
  | stp :: delta :: rest =>
    let cty := biasCorrect yd ty
    if 40 ≤ stp ∧ stp ≤ 100 ∧ -100 ≤ delta ∧ delta ≤ 100 then
      let tx' := tx + stp
      let upd : ℚ × ℤ × List ℤ :=
        if nxt < tx' then (lasty, (popThreshold rem).1, (popThreshold rem).2)
        else (cty + (delta : ℚ), nxt, rem)
      if xd < tx' then some [(tx, cty), (xd, upd.1)]
      else Option.map (fun l => (tx, cty) :: l)
        (genLoop xd yd tx' upd.1 upd.1 upd.2.1 upd.2.2 rest)
    else none
  | _ => none

/-- `Terrain._gen_terrain` (lines 62-94) with the two `randint(10,
self.xdim)` draws of line 71 taken from the head of the stream, sorted
ascending, the first popped as the initial threshold (lines 72-73), and
the walk started at `tx = 0`, `ty = ydim * 0.85` (lines 67-70).  Note
the source always draws exactly two thresholds; the stored
`landing_zones` count is never consulted. -/
def genTerrain (xd yd : ℤ) : List ℤ → Option (List (ℤ × ℚ))
  | a :: b :: rest =>
    if 10 ≤ a ∧ a ≤ xd ∧ 10 ≤ b ∧ b ≤ xd then
      let ty0 : ℚ := (yd : ℚ) * (17/20)
      if a ≤ b then genLoop xd (yd : ℚ) 0 ty0 ty0 a [b] rest
      else genLoop xd (yd : ℚ) 0 ty0 ty0 b [a] rest
    else none
  | _ => none

/-- `Terrain._gen_terrain` invoked on a `Terrain` instance: it reads
`xdim` and `ydim` and, like the source, ignores `landing_zones`. -/
def Terrain.gen (t : Terrain) (stream : List ℤ) : Option (List (ℤ × ℚ)) :=
  genTerrain t.xdim t.ydim stream

/-- Number of maximal runs of length at least 2 of equal consecutive
values, given the current run's value and length so far. -/
def countFlatRunsAux (cur : ℚ) (len : ℕ) : List ℚ → ℕ
  | [] => if 2 ≤ len then 1 else 0
  | y :: ys =>
    if y = cur then countFlatRunsAux cur (len + 1) ys
    else (if 2 ≤ len then 1 else 0) + countFlatRunsAux y 1 ys

/-- Number of maximal runs of two or more consecutive equal values. -/
def countFlatRuns : List ℚ → ℕ
  | [] => 0
  | y :: ys => countFlatRunsAux y 1 ys

/-- A concrete oracle instance used for witnesses and counterexamples;
the claim theorems themselves hold for every oracle. -/
def oracle0 : NumOracle :=
  { xmul := fun _ => 0, ymul := fun _ => 0, sqrtq := fun _ => 0 }

theorem update_eq_some (o : NumOracle) (s s' : LanderState) :
    update_telemetry o s = some s' ↔
      ∃ t0, thrustMap s.thrust_level = some t0 ∧ updateCore o s t0 = s' := by
  simp [update_telemetry, Option.map_eq_some']

theorem updateCore_fuel_nonneg (o : NumOracle) (s : LanderState) (t0 : ℚ) :
    0 ≤ (updateCore o s t0).fuel := by
  simp only [updateCore]
  split_ifs with h
  · norm_num
  · simp only [not_lt] at h
    exact h

/-- C10: one `update_telemetry` call never changes the control settings
`thrust_level`, `thrust_fuel_burn` and `spin_fuel_burn` (nor the world
dimensions or the pause flag); only the kinematic quantities, the
derived thrust magnitude and the fuel gauge are written. -/
theorem advance_touches_only_dynamics (o : NumOracle) (s s' : LanderState)
    (h : update_telemetry o s = some s') :
    s'.thrust_level = s.thrust_level ∧
    s'.thrust_fuel_burn = s.thrust_fuel_burn ∧
    s'.spin_fuel_burn = s.spin_fuel_burn ∧
    s'.xdim = s.xdim ∧ s'.ydim = s.ydim ∧ s'.pause = s.pause := by
  obtain ⟨t0, -, rfl⟩ := (update_eq_some o s s').mp h
  exact ⟨rfl, rfl, rfl, rfl, rfl, rfl⟩

theorem advance_touches_only_dynamics_witness :
    (updateCore oracle0 (initLander 1024 768) 0).thrust_level =
      (initLander 1024 768).thrust_level ∧
    (updateCore oracle0 (initLander 1024 768) 0).thrust_fuel_burn =
      (initLander 1024 768).thrust_fuel_burn ∧
    (updateCore oracle0 (initLander 1024 768) 0).spin_fuel_burn =
      (initLander 1024 768).spin_fuel_burn ∧
    (updateCore oracle0 (initLander 1024 768) 0).xdim = (initLander 1024 768).xdim ∧
    (updateCore oracle0 (initLander 1024 768) 0).ydim = (initLander 1024 768).ydim ∧
    (updateCore oracle0 (initLander 1024 768) 0).pause = (initLander 1024 768).pause :=
  advance_touches_only_dynamics oracle0 (initLander 1024 768) _ rfl

/-- State used to exhibit the heading-wrap boundary case: heading 355
with turn rate +5. -/
def headingState : LanderState :=
  { initLander 1024 768 with degree := 355, degree_change := 5 }

/-- C2, counterexample: it is not the case that the heading always lands
in [0, 360) after `update_telemetry`; from heading 355 with turn rate 5
the wrap code of lines 220-224 leaves the heading at exactly 360. -/
theorem heading_in_ico_false :
    ¬ (∀ (o : NumOracle) (s s' : LanderState),
        update_telemetry o s = some s' → 0 ≤ s'.degree ∧ s'.degree < 360) := by
  intro h
  have hd : (updateCore oracle0 headingState 0).degree = 360 := by
    norm_num [updateCore, headingState, initLander, headingAfter, normalizeDegree]
  have h2 := h oracle0 headingState (updateCore oracle0 headingState 0) rfl
  rw [hd] at h2
  exact absurd h2.2 (by norm_num)

/-- C2, amended: after one `update_telemetry` call the heading lies in
the closed interval [0, 360] — the endpoint 360 itself is reachable —
provided the prior heading was in [0, 360] and the turn rate has
magnitude at most 360 (the single-step wrap of lines 220-224 only
corrects by one multiple of 360). -/
theorem heading_in_closed_interval (o : NumOracle) (s s' : LanderState)
    (h0 : 0 ≤ s.degree) (h1 : s.degree ≤ 360)
    (h2 : -360 ≤ s.degree_change) (h3 : s.degree_change ≤ 360)
    (h : update_telemetry o s = some s') :
    0 ≤ s'.degree ∧ s'.degree ≤ 360 := by
  obtain ⟨t0, -, rfl⟩ := (update_eq_some o s s').mp h
  have hdeg : (updateCore o s t0).degree =
      normalizeDegree (s.degree + s.degree_change) := rfl
  rw [hdeg]
  simp only [normalizeDegree]
  split_ifs <;> constructor <;> linarith

theorem heading_in_closed_interval_witness :
    0 ≤ (updateCore oracle0 headingState 0).degree ∧
    (updateCore oracle0 headingState 0).degree ≤ 360 :=
  heading_in_closed_interval oracle0 headingState _
    (by norm_num [headingState, initLander])
    (by norm_num [headingState, initLander])
    (by norm_num [headingState, initLander])
    (by norm_num [headingState, initLander]) rfl

theorem thrust_up_fuel (s : LanderState) : (thrust_up s).fuel = s.fuel := by
  simp only [thrust_up]
  split_ifs <;> rfl

theorem thrust_down_fuel (s : LanderState) : (thrust_down s).fuel = s.fuel := by
  simp only [thrust_down]
  split_ifs <;> rfl

theorem spin_left_fuel (s : LanderState) : (spin_left s).fuel = s.fuel := by
  simp only [spin_left]
  split_ifs <;> rfl

theorem spin_right_fuel (s : LanderState) : (spin_right s).fuel = s.fuel := by
  simp only [spin_right]
  split_ifs <;> rfl

theorem spin_stop_fuel (s : LanderState) : (spin_stop s).fuel = s.fuel := by
  simp only [spin_stop]
  split_ifs <;> rfl

theorem stepCmd_fuel_nonneg (o : NumOracle) (c : Cmd) (s s' : LanderState)
    (hs : 0 ≤ s.fuel) (h : stepCmd o c s = some s') : 0 ≤ s'.fuel := by
  cases c <;> simp only [stepCmd] at h
  · exact (Option.some_inj.mp h) ▸ (thrust_up_fuel s ▸ hs)
  · exact (Option.some_inj.mp h) ▸ (thrust_down_fuel s ▸ hs)
  · exact (Option.some_inj.mp h) ▸ (spin_left_fuel s ▸ hs)
  · exact (Option.some_inj.mp h) ▸ (spin_right_fuel s ▸ hs)
  · exact (Option.some_inj.mp h) ▸ (spin_stop_fuel s ▸ hs)
  · obtain ⟨t0, -, rfl⟩ := (update_eq_some o s s').mp h
    exact updateCore_fuel_nonneg o s t0

theorem runCmds_fuel_nonneg (o : NumOracle) (cmds : List Cmd) :
    ∀ (s s' : LanderState), 0 ≤ s.fuel → runCmds o s cmds = some s' → 0 ≤ s'.fuel := by
  induction cmds with
  | nil =>
    intro s s' hs h
    simp only [runCmds, Option.some_inj] at h
    exact h ▸ hs
  | cons c cs ih =>
    intro s s' hs h
    simp only [runCmds, Option.bind_eq_some] at h
    obtain ⟨sm, hm, hr⟩ := h
    exact ih sm s' (stepCmd_fuel_nonneg o c s sm hs hm) hr

/-- C3: starting from the initial vehicle state, after any finite
sequence of thrust/spin commands and `update_telemetry` ticks, the fuel
gauge is never negative: commands do not touch fuel and the per-tick
burn of lines 269-271 clamps the result at zero. -/
theorem fuel_never_negative (o : NumOracle) (xd yd : ℚ) (cmds : List Cmd)
    (s' : LanderState) (h : runCmds o (initLander xd yd) cmds = some s') :
    0 ≤ s'.fuel := by
  refine runCmds_fuel_nonneg o cmds (initLander xd yd) s' ?_ h
  norm_num [initLander, FUEL]

theorem fuel_never_negative_witness :
    0 ≤ (updateCore oracle0 (thrust_up (initLander 1024 768)) (GRAVITY * (9/10))).fuel :=
  fuel_never_negative oracle0 1024 768 [Cmd.thrustUp, Cmd.advance] _ rfl

/-- C4: with the tank empty, one `update_telemetry` call moves the
vehicle exactly as it would with the throttle at zero — the guard of
lines 212-213 forces the thrust magnitude to 0, so velocity (and hence
position) deltas agree for every `thrust_level`. -/
theorem empty_tank_thrust_inert (o : NumOracle) (s s1 s2 : LanderState)
    (hf : s.fuel = 0)
    (h1 : update_telemetry o s = some s1)
    (h2 : update_telemetry o { s with thrust_level := 0 } = some s2) :
    s1.xspeed = s2.xspeed ∧ s1.yspeed = s2.yspeed ∧
    s1.shipx = s2.shipx ∧ s1.shipy = s2.shipy := by
  obtain ⟨t0, -, rfl⟩ := (update_eq_some o s s1).mp h1
  obtain ⟨t1, ht1, rfl⟩ := (update_eq_some o _ s2).mp h2
  have ht1' : t1 = 0 := by
    simpa [thrustMap] using ht1.symm
  subst ht1'
  refine ⟨?_, ?_, ?_, ?_⟩ <;> simp [updateCore, vxMid, vyMid, gatedThrust, headingAfter, hf]

/-- Empty-tank state at throttle level 3 used to witness C4. -/
def emptyTankState : LanderState :=
  { initLander 1024 768 with fuel := 0, thrust_level := 3, xspeed := 2, yspeed := 1 }

theorem empty_tank_thrust_inert_witness :
    (updateCore oracle0 emptyTankState (GRAVITY * 5)).xspeed =
      (updateCore oracle0 { emptyTankState with thrust_level := 0 } 0).xspeed ∧
    (updateCore oracle0 emptyTankState (GRAVITY * 5)).yspeed =
      (updateCore oracle0 { emptyTankState with thrust_level := 0 } 0).yspeed ∧
    (updateCore oracle0 emptyTankState (GRAVITY * 5)).shipx =
      (updateCore oracle0 { emptyTankState with thrust_level := 0 } 0).shipx ∧
    (updateCore oracle0 emptyTankState (GRAVITY * 5)).shipy =
      (updateCore oracle0 { emptyTankState with thrust_level := 0 } 0).shipy :=
  empty_tank_thrust_inert oracle0 emptyTankState _ _ rfl rfl rfl

/-- C5: from a state with throttle off and no throttle burn, `n` calls
of `thrust_up` leave the level at `n mod 5` and the burn rate at
`(n mod 5) * 0.05`: the level cycles 0,1,2,3,4,0,… (never above 4,
never negative) and on the step that would pass 4 both the level and
the burn rate wrap back to exactly 0 (lines 275-280). -/
theorem thrust_up_cycles (n : ℕ) (s : LanderState)
    (hl : s.thrust_level = 0) (hb : s.thrust_fuel_burn = 0) :
    (thrust_up^[n] s).thrust_level = ((n % 5 : ℕ) : ℤ) ∧
    (thrust_up^[n] s).thrust_fuel_burn = ((n % 5 : ℕ) : ℚ) * (1/20) := by
  induction n with
  | zero => simpa using ⟨hl, by rw [hb]⟩
  | succ n ih =>
    rw [Function.iterate_succ_apply']
    obtain ⟨il, ib⟩ := ih
    by_cases h4 : n % 5 = 4
    · have hmod : (n + 1) % 5 = 0 := by omega
      have hcond : (thrust_up^[n] s).thrust_level + 1 > 4 := by
        rw [il, h4]; norm_num
      simp only [thrust_up, if_pos hcond, hmod]
      norm_num
    · have hlt : n % 5 < 4 := by omega
      have hmod : (n + 1) % 5 = n % 5 + 1 := by omega
      have hcond : ¬ ((thrust_up^[n] s).thrust_level + 1 > 4) := by
        rw [il]
        have : ((n % 5 : ℕ) : ℤ) < 4 := by exact_mod_cast hlt
        omega
      simp only [thrust_up, if_neg hcond, hmod]
      constructor
      · rw [il]; push_cast; ring
      · rw [ib]; push_cast; ring

theorem thrust_up_cycles_witness :
    (thrust_up^[7] (initLander 1024 768)).thrust_level = ((7 % 5 : ℕ) : ℤ) ∧
    (thrust_up^[7] (initLander 1024 768)).thrust_fuel_burn = ((7 % 5 : ℕ) : ℚ) * (1/20) :=
  thrust_up_cycles 7 (initLander 1024 768) rfl rfl

/-- Vehicle one unit below the bottom edge, descending at 5, turning at
rate 4, used to witness the bounce theorem. -/
def bounceState : LanderState :=
  { initLander 1024 768 with shipy := 769, yspeed := 5, degree_change := 4 }

/-- Vehicle past the bottom-right corner (shipx = 1025, shipy = 769)
moving down-right, used to witness the double damping of a corner hit. -/
def cornerState : LanderState :=
  { initLander 1024 768 with shipx := 1025, shipy := 769, xspeed := 3, yspeed := 5 }

/-- C6: the boundary-bounce rules of lines 244-259.  For each of the
four screen edges, if the ship center has crossed that edge and the
(post-thrust, post-gravity) velocity still moves further past it, the
corresponding velocity component is inverted and multiplied by 0.7, the
other component is multiplied by 0.7, and the turn rate is halved; the
four checks run independently in source order, so a corner hit damps
twice in the same tick (fifth part).  In the concrete scenario (sixth
part), a vehicle at `y = world_height + 1` descending at `vy = +5` with
zero thrust ends one `update_telemetry` call with `vy` equal to exactly
-707/200 = -3.535 (the post-gravity 5.05 times -0.7): negative, reduced
in magnitude below 5, and within 0.1 of -3.5, with the turn rate
halved.  `vxMid`/`vyMid` are the pre-bounce velocities of lines
228-241, so each part is stated for arbitrary thrust and fuel. -/
theorem edge_bounce_rules :
    (∀ (o : NumOracle) (s s' : LanderState) (t0 : ℚ),
      thrustMap s.thrust_level = some t0 →
      update_telemetry o s = some s' →
      s.shipy > s.ydim → vyMid o s t0 > 0 →
      ¬ (s.shipy < 0) → ¬ (s.shipx > s.xdim) → ¬ (s.shipx < 0) →
      s'.yspeed = vyMid o s t0 * (7/10) * (-1) ∧
      s'.xspeed = vxMid o s t0 * (7/10) ∧
      s'.degree_change = s.degree_change * (1/2)) ∧
    (∀ (o : NumOracle) (s s' : LanderState) (t0 : ℚ),
      thrustMap s.thrust_level = some t0 →
      update_telemetry o s = some s' →
      s.shipy < 0 → vyMid o s t0 < 0 →
      ¬ (s.shipx > s.xdim) → ¬ (s.shipx < 0) →
      s'.yspeed = vyMid o s t0 * (7/10) * (-1) ∧
      s'.xspeed = vxMid o s t0 * (7/10) ∧
      s'.degree_change = s.degree_change * (1/2)) ∧
    (∀ (o : NumOracle) (s s' : LanderState) (t0 : ℚ),
      thrustMap s.thrust_level = some t0 →
      update_telemetry o s = some s' →
      s.shipx > s.xdim → vxMid o s t0 > 0 →
      ¬ (s.shipy > s.ydim) → ¬ (s.shipy < 0) → ¬ (s.shipx < 0) →
      s'.xspeed = vxMid o s t0 * (7/10) * (-1) ∧
      s'.yspeed = vyMid o s t0 * (7/10) ∧
      s'.degree_change = s.degree_change * (1/2)) ∧
    (∀ (o : NumOracle) (s s' : LanderState) (t0 : ℚ),
      thrustMap s.thrust_level = some t0 →
      update_telemetry o s = some s' →
      s.shipx < 0 → vxMid o s t0 < 0 →
      ¬ (s.shipy > s.ydim) → ¬ (s.shipy < 0) →
      s'.xspeed = vxMid o s t0 * (7/10) * (-1) ∧
      s'.yspeed = vyMid o s t0 * (7/10) ∧
      s'.degree_change = s.degree_change * (1/2)) ∧
    (∀ (o : NumOracle) (s s' : LanderState) (t0 : ℚ),
      thrustMap s.thrust_level = some t0 →
      update_telemetry o s = some s' →
      s.shipy > s.ydim → vyMid o s t0 > 0 →
      s.shipx > s.xdim → vxMid o s t0 > 0 →
      ¬ (s.shipy < 0) → ¬ (s.shipx < 0) →
      s'.yspeed = vyMid o s t0 * (7/10) * (-1) * (7/10) ∧
      s'.xspeed = vxMid o s t0 * (7/10) * (7/10) * (-1) ∧
      s'.degree_change = s.degree_change * (1/2) * (1/2)) ∧
    (∀ (o : NumOracle) (s s' : LanderState),
      s.shipy = s.ydim + 1 → s.yspeed = 5 → s.thrust_level = 0 →
      0 ≤ s.ydim → 0 ≤ s.shipx → s.shipx ≤ s.xdim →
      update_telemetry o s = some s' →
      s'.yspeed = -(707/200) ∧ s'.yspeed < 0 ∧ -5 < s'.yspeed ∧
      -(36/10) < s'.yspeed ∧ s'.yspeed < -(34/10) ∧
      s'.xspeed = s.xspeed * (7/10) ∧
      s'.degree_change = s.degree_change * (1/2)) := by
  refine ⟨?_, ?_, ?_, ?_, ?_, ?_⟩
  · intro o s s' t0 ht h hby hvy hnt hnr hnl
    obtain ⟨t1, ht1, rfl⟩ := (update_eq_some o s s').mp h
    rw [ht1] at ht
    obtain rfl := Option.some_inj.mp ht
    simp [updateCore, bounceBottom, bounceTop, bounceRight, bounceLeft,
      hby, hvy, hnt, hnr, hnl]
  · intro o s s' t0 ht h hty hvy hnr hnl
    obtain ⟨t1, ht1, rfl⟩ := (update_eq_some o s s').mp h
    rw [ht1] at ht
    obtain rfl := Option.some_inj.mp ht
    have hnb : ¬ (0 < vyMid o s t1) := lt_asymm hvy
    simp [updateCore, bounceBottom, bounceTop, bounceRight, bounceLeft,
      hty, hvy, hnb, hnr, hnl]
  · intro o s s' t0 ht h hbx hvx hnb hnt hnl
    obtain ⟨t1, ht1, rfl⟩ := (update_eq_some o s s').mp h
    rw [ht1] at ht
    obtain rfl := Option.some_inj.mp ht
    simp [updateCore, bounceBottom, bounceTop, bounceRight, bounceLeft,
      hbx, hvx, hnb, hnt, hnl]
  · intro o s s' t0 ht h htx hvx hnb hnt
    obtain ⟨t1, ht1, rfl⟩ := (update_eq_some o s s').mp h
    rw [ht1] at ht
    obtain rfl := Option.some_inj.mp ht
    have hnr : ¬ (0 < vxMid o s t1) := lt_asymm hvx
    simp [updateCore, bounceBottom, bounceTop, bounceRight, bounceLeft,
      htx, hvx, hnb, hnt, hnr]
  · intro o s s' t0 ht h hby hvy hbx hvx hnt hnl
    obtain ⟨t1, ht1, rfl⟩ := (update_eq_some o s s').mp h
    rw [ht1] at ht
    obtain rfl := Option.some_inj.mp ht
    have hvx7 : 0 < vxMid o s t1 * (7/10) := mul_pos hvx (by norm_num)
    simp [updateCore, bounceBottom, bounceTop, bounceRight, bounceLeft,
      hby, hvy, hbx, hvx, hvx7, hnt, hnl]
  · intro o s s' hsy hvy hl hyd hx1 hx2 h
    obtain ⟨t0, ht, rfl⟩ := (update_eq_some o s s').mp h
    rw [hl] at ht
    have ht0 : t0 = 0 := by simpa [thrustMap] using ht.symm
    subst ht0
    have c1 : s.shipy > s.ydim := by rw [hsy]; linarith
    have c2 : ¬ (s.shipy < 0) := by rw [hsy]; linarith
    have c3 : ¬ (s.shipx > s.xdim) := not_lt.mpr hx2
    have c4 : ¬ (s.shipx < 0) := not_lt.mpr hx1
    norm_num [updateCore, vxMid, vyMid, gatedThrust, headingAfter,
      bounceBottom, bounceTop, bounceRight, bounceLeft,
      GRAVITY, hvy, c1, c2, c3, c4]

theorem edge_bounce_rules_witness :
    ((updateCore oracle0 cornerState 0).yspeed =
        vyMid oracle0 cornerState 0 * (7/10) * (-1) * (7/10) ∧
      (updateCore oracle0 cornerState 0).xspeed =
        vxMid oracle0 cornerState 0 * (7/10) * (7/10) * (-1) ∧
      (updateCore oracle0 cornerState 0).degree_change =
        cornerState.degree_change * (1/2) * (1/2)) ∧
    ((updateCore oracle0 bounceState 0).yspeed = -(707/200) ∧
      (updateCore oracle0 bounceState 0).yspeed < 0 ∧
      -5 < (updateCore oracle0 bounceState 0).yspeed ∧
      -(36/10) < (updateCore oracle0 bounceState 0).yspeed ∧
      (updateCore oracle0 bounceState 0).yspeed < -(34/10) ∧
      (updateCore oracle0 bounceState 0).xspeed = bounceState.xspeed * (7/10) ∧
      (updateCore oracle0 bounceState 0).degree_change =
        bounceState.degree_change * (1/2)) :=
  ⟨edge_bounce_rules.2.2.2.2.1 oracle0 cornerState _ 0 rfl rfl
      (by norm_num [cornerState, initLander])
      (by norm_num [vyMid, gatedThrust, headingAfter, thrustAngle,
        normalizeDegree, oracle0, cornerState, initLander, GRAVITY])
      (by norm_num [cornerState, initLander])
      (by norm_num [vxMid, gatedThrust, headingAfter, thrustAngle,
        normalizeDegree, oracle0, cornerState, initLander])
      (by norm_num [cornerState, initLander])
      (by norm_num [cornerState, initLander]),
   edge_bounce_rules.2.2.2.2.2 oracle0 bounceState _
      (by norm_num [bounceState, initLander]) rfl rfl
      (by norm_num [bounceState, initLander])
      (by norm_num [bounceState, initLander])
      (by norm_num [bounceState, initLander]) rfl⟩

theorem quiescent_step (o : NumOracle) (s : LanderState)
    (hl : s.thrust_level = 0) (hdeg : s.degree = 0) (hdc : s.degree_change = 0)
    (hvx : s.xspeed = 0) (hvy : 0 ≤ s.yspeed) (hsy : s.shipy ≤ s.ydim)
    (hf : 0 ≤ s.fuel) (htb : s.thrust_fuel_burn = 0) (hsb : s.spin_fuel_burn = 0) :
    update_telemetry o s = some (updateCore o s 0) ∧
    (updateCore o s 0).thrust_level = 0 ∧
    (updateCore o s 0).degree = 0 ∧
    (updateCore o s 0).degree_change = 0 ∧
    (updateCore o s 0).thrust_fuel_burn = 0 ∧
    (updateCore o s 0).spin_fuel_burn = 0 ∧
    (updateCore o s 0).xspeed = 0 ∧
    (updateCore o s 0).yspeed = s.yspeed + 1/20 ∧
    (updateCore o s 0).fuel = s.fuel ∧
    (updateCore o s 0).shipy = s.shipy + (s.yspeed + 1/20) ∧
    (updateCore o s 0).shipx = s.shipx ∧
    (updateCore o s 0).xdim = s.xdim ∧
    (updateCore o s 0).ydim = s.ydim := by
  have c1 : ¬ (s.shipy > s.ydim) := not_lt.mpr hsy
  have c2 : ¬ (s.yspeed + GRAVITY < 0) := by
    simp only [GRAVITY]
    intro hc
    linarith
  have hfc : ¬ (s.fuel < 0) := not_lt.mpr hf
  refine ⟨by rw [update_telemetry, hl]; rfl, ?_⟩
  simp only [updateCore, vxMid, vyMid, gatedThrust, headingAfter,
    bounceBottom, bounceTop, bounceRight, bounceLeft,
    ite_self, zero_mul, add_zero, zero_add, sub_zero, hl, hvx, hdeg, hdc, htb, hsb,
    c1, c2, hfc, false_and, and_false, if_false, lt_self_iff_false,
    lt_irrefl, gt_iff_lt, not_false_eq_true]
  norm_num [normalizeDegree, GRAVITY]

theorem quiescent_run (o : NumOracle) (k : ℕ) (hk : k ≤ 20) :
    ∃ s', advanceN o k (initLander 1024 768) = some s' ∧
      s'.thrust_level = 0 ∧ s'.degree = 0 ∧ s'.degree_change = 0 ∧
      s'.thrust_fuel_burn = 0 ∧ s'.spin_fuel_burn = 0 ∧
      s'.xspeed = 0 ∧ s'.yspeed = (k : ℚ) / 20 ∧ s'.fuel = 100 ∧
      s'.shipy = 150 + (k : ℚ) * (k + 1) / 40 ∧
      s'.shipx = 250 ∧ s'.xdim = 1024 ∧ s'.ydim = 768 := by
  induction k with
  | zero =>
    refine ⟨initLander 1024 768, rfl, ?_⟩
    norm_num [initLander, FUEL]
  | succ k ih =>
    obtain ⟨s', hrun, hl, hdeg, hdc, htb, hsb, hvx, hvy, hf, hsy, hsx, hxd, hyd⟩ :=
      ih (by omega)
    have hkq : (k : ℚ) ≤ 19 := by exact_mod_cast (by omega : k ≤ 19)
    have hkq0 : (0:ℚ) ≤ (k : ℚ) := by positivity
    have hsyb : s'.shipy ≤ s'.ydim := by
      rw [hsy, hyd]
      nlinarith
    have hvy0 : 0 ≤ s'.yspeed := by rw [hvy]; positivity
    have hf0 : (0:ℚ) ≤ s'.fuel := by rw [hf]; norm_num
    obtain ⟨hupd, nl, ndeg, ndc, ntb, nsb, nvx, nvy, nf, nsy, nsx, nxd, nyd⟩ :=
      quiescent_step o s' hl hdeg hdc hvx hvy0 hsyb hf0 htb hsb
    refine ⟨updateCore o s' 0, ?_, nl, ndeg, ndc, ntb, nsb, nvx, ?_, ?_, ?_, ?_, ?_, ?_⟩
    · rw [advanceN, hrun]
      simpa using hupd
    · rw [nvy, hvy]; push_cast; ring
    · rw [nf, hf]
    · rw [nsy, hsy, hvy]; push_cast; ring
    · rw [nsx, hsx]
    · rw [nxd, hxd]
    · rw [nyd, hyd]

/-- C7: from the initial state (at rest, throttle off, fuel 100,
heading 0) in a 1024 by 768 world, twenty `update_telemetry` ticks with
no commands leave the fuel at exactly 100 and the horizontal speed at
exactly 0, and accumulate a vertical speed of exactly 20 times the
gravity constant 0.05, i.e. 1 (pure gravity, no burn). -/
theorem twenty_ticks_pure_gravity (o : NumOracle) :
    ∃ s', advanceN o 20 (initLander 1024 768) = some s' ∧
      s'.fuel = 100 ∧ s'.xspeed = 0 ∧ s'.yspeed = 1 := by
  obtain ⟨s', hrun, -, -, -, -, -, hvx, hvy, hf, -⟩ := quiescent_run o 20 le_rfl
  exact ⟨s', hrun, hf, hvx, by rw [hvy]; norm_num⟩

theorem genLoop_head (xd : ℤ) (yd : ℚ) (tx : ℤ) (ty lasty : ℚ) (nxt : ℤ)
    (rem : List ℤ) (stream : List ℤ) (pts : List (ℤ × ℚ))
    (h : genLoop xd yd tx ty lasty nxt rem stream = some pts) :
    pts.head? = some (tx, biasCorrect yd ty) := by
  match stream with
  | [] => simp [genLoop] at h
  | [a] => simp [genLoop] at h
  | a :: b :: rest =>
    simp only [genLoop] at h
    split_ifs at h <;>
      first
        | (rw [Option.some_inj] at h; subst h; rfl)
        | (obtain ⟨l, -, rfl⟩ := Option.map_eq_some'.mp h; rfl)

/-- C8, amended: the first generated terrain point always has `x = 0`,
but its y is the baseline `0.85 * world_height` only after the loop-top
adjustment of lines 75-78 (+100 whenever `y < world_height`, then -100
whenever the result exceeds `world_height`), which cancels exactly when
`world_height ≤ 666`; for taller worlds the first point sits at
`0.85 * world_height + 100`.  The adjustment is applied on every
iteration whenever `y` differs from `world_height`, not only when `y`
leaves the range `[0, world_height]`. -/
theorem terrain_first_point (xd yd : ℤ) (stream : List ℤ) (pts : List (ℤ × ℚ))
    (hyd : 0 < yd) (h : genTerrain xd yd stream = some pts) :
    pts.head? = some ((0 : ℤ),
      if yd ≤ 666 then (yd : ℚ) * (17/20) else (yd : ℚ) * (17/20) + 100) := by
  have hq : (0 : ℚ) < (yd : ℚ) := by exact_mod_cast hyd
  have h1 : (yd : ℚ) * (17/20) < (yd : ℚ) := by linarith
  have hbias : biasCorrect (yd : ℚ) ((yd : ℚ) * (17/20)) =
      if yd ≤ 666 then (yd : ℚ) * (17/20) else (yd : ℚ) * (17/20) + 100 := by
    by_cases h6 : yd ≤ 666
    · have hq6 : (yd : ℚ) ≤ 666 := by exact_mod_cast h6
      have hgt : (yd : ℚ) * (17/20) + 100 > (yd : ℚ) := by linarith
      simp only [biasCorrect, h1, if_true, hgt]
      rw [if_pos h6]
      ring
    · have hq6 : (667 : ℚ) ≤ (yd : ℚ) := by exact_mod_cast (by omega : (667:ℤ) ≤ yd)
      have hngt : ¬ ((yd : ℚ) * (17/20) + 100 > (yd : ℚ)) := by
        intro hc
        linarith
      simp only [biasCorrect, h1, if_true, hngt, if_false]
      rw [if_neg h6]
  match stream with
  | [] => simp [genTerrain] at h
  | [a] => simp [genTerrain] at h
  | a :: b :: rest =>
    simp only [genTerrain] at h
    split_ifs at h
    · rw [genLoop_head xd (yd : ℚ) 0 _ _ a [b] rest pts h, hbias]
    · rw [genLoop_head xd (yd : ℚ) 0 _ _ b [a] rest pts h, hbias]

/-- Random draws (two thresholds, then step/delta pairs) for which both
flat thresholds equal 1024, so the single flat reset happens only on the
terminating step and leaves no equal-y pair in the profile. -/
def flatMissStream : List ℤ :=
  [1024, 1024, 100, -90, 100, -90, 100, -90, 100, -90, 100, -90, 100, -90,
   100, -90, 100, -90, 100, -90, 100, -90, 100, -90]

/-- The terrain generated from `flatMissStream` in a 1024 by 768 world:
all consecutive y values differ. -/
def flatMissProfile : List (ℤ × ℚ) :=
  [(0, 3764/5), (100, 3814/5), (200, 3364/5), (300, 3414/5), (400, 3464/5),
   (500, 3514/5), (600, 3564/5), (700, 3614/5), (800, 3664/5), (900, 3714/5),
   (1000, 3764/5), (1024, 3264/5)]

/-- Random draws whose thresholds 150 and 400 are both crossed well
before the right edge, each producing one flat pair. -/
def flatHitStream : List ℤ :=
  [150, 400, 100, -90, 100, -90, 100, -90, 100, -90, 100, -90, 100, -90,
   100, -90, 100, -90, 100, -90, 100, -90, 100, -90]

/-- The terrain generated from `flatHitStream` in a 1024 by 768 world:
two maximal runs of two equal consecutive y values (at x = 100..200 and
x = 400..500). -/
def flatHitProfile : List (ℤ × ℚ) :=
  [(0, 3764/5), (100, 3814/5), (200, 3814/5), (300, 3364/5), (400, 3414/5),
   (500, 3414/5), (600, 3464/5), (700, 3514/5), (800, 3564/5), (900, 3614/5),
   (1000, 3664/5), (1024, 3214/5)]

/-- C1, counterexample: the generated profile does not always contain at
least two maximal runs of equal-y points.  When a flat threshold is
crossed only on the terminating iteration (here both thresholds are
1024), the final point receives the pre-adjustment y of line 92 while
its predecessor carries the adjusted y of lines 75-78, so no equal pair
is created at all: the profile from `flatMissStream` has zero flat
runs. -/
theorem terrain_flat_runs_not_guaranteed :
    ¬ (∀ (xd yd : ℤ) (stream : List ℤ) (pts : List (ℤ × ℚ)),
        0 < xd → 0 < yd → genTerrain xd yd stream = some pts →
        2 ≤ countFlatRuns (pts.map Prod.snd)) := by
  intro hcl
  have h2 := hcl 1024 768 flatMissStream flatMissProfile (by norm_num) (by norm_num)
    (by norm_num [genTerrain, genLoop, biasCorrect, popThreshold, maxsize,
      flatMissStream, flatMissProfile])
  have h0 : countFlatRuns (flatMissProfile.map Prod.snd) = 0 := by
    norm_num [flatMissProfile, countFlatRuns, countFlatRunsAux]
  rw [h0] at h2
  exact absurd h2 (by norm_num)

/-- C1, amended: the flatness guarantee is generic, not universal.  For
the 1024 by 768 world with the default two thresholds there are random
outcomes whose profile contains (at least) 2 maximal runs of two or
more consecutive equal-y points, and also outcomes whose profile
contains none — the latter when a threshold is consumed only on the
terminating step, so `landing_zone_count` flat runs are not present in
every generated profile. -/
theorem terrain_flat_runs_generic :
    genTerrain 1024 768 flatHitStream = some flatHitProfile ∧
    countFlatRuns (flatHitProfile.map Prod.snd) = 2 ∧
    genTerrain 1024 768 flatMissStream = some flatMissProfile ∧
    countFlatRuns (flatMissProfile.map Prod.snd) = 0 := by
  refine ⟨?_, ?_, ?_, ?_⟩
  · norm_num [genTerrain, genLoop, biasCorrect, popThreshold, maxsize,
      flatHitStream, flatHitProfile]
  · norm_num [flatHitProfile, countFlatRuns, countFlatRunsAux]
  · norm_num [genTerrain, genLoop, biasCorrect, popThreshold, maxsize,
      flatMissStream, flatMissProfile]
  · norm_num [flatMissProfile, countFlatRuns, countFlatRunsAux]

/-- C8, counterexample: the first generated point is not `(0, 0.85 *
world_height)` for every positive world size.  In a 10 by 768 world the
loop-top adjustment of lines 75-78 raises the starting y from 652.8 to
752.8 before the first point is appended. -/
theorem terrain_first_point_not_baseline :
    ¬ (∀ (xd yd : ℤ) (stream : List ℤ) (pts : List (ℤ × ℚ)),
        0 < xd → 0 < yd → genTerrain xd yd stream = some pts →
        pts.head? = some ((0 : ℤ), (yd : ℚ) * (17/20))) := by
  intro hcl
  have h2 := hcl 10 768 [10, 10, 40, 0] [(0, 3764/5), (10, 3264/5)]
    (by norm_num) (by norm_num)
    (by norm_num [genTerrain, genLoop, biasCorrect, popThreshold, maxsize])
  rw [List.head?] at h2
  rw [Option.some_inj, Prod.mk.injEq] at h2
  exact absurd h2.2 (by norm_num)

theorem terrain_first_point_witness :
    ([((0 : ℤ), (3764/5 : ℚ)), (10, 3264/5)] : List (ℤ × ℚ)).head? =
      some ((0 : ℤ),
        if (768 : ℤ) ≤ 666 then ((768 : ℤ) : ℚ) * (17/20)
        else ((768 : ℤ) : ℚ) * (17/20) + 100) :=
  terrain_first_point 10 768 [10, 10, 40, 0] _ (by norm_num)
    (by norm_num [genTerrain, genLoop, biasCorrect, popThreshold, maxsize])

/-- C9, counterexample: constructing a `Terrain` with non-positive world
dimensions and a negative landing-zone count does not fail; the
constructor of lines 43-53 performs no validation and simply stores the
arguments. -/
theorem terrain_init_no_failfast :
    ¬ (∀ (whe : String) (xd yd lz : ℤ),
        (xd ≤ 0 ∨ yd ≤ 0 ∨ lz < 0) → Terrain.init whe xd yd lz = none) := by
  intro hcl
  exact absurd (hcl ("moon") (-5) (-5) (-1) (Or.inl (by norm_num)))
    (by simp [Terrain.init])

/-- Random draws for a generation run in a world of negative height:
thresholds 10, 10, then eleven steps of 100 with delta 0. -/
def negHeightStream : List ℤ :=
  [10, 10, 100, 0, 100, 0, 100, 0, 100, 0, 100, 0, 100, 0,
   100, 0, 100, 0, 100, 0, 100, 0, 100, 0]

/-- C9, amended: construction never fails, whatever the arguments; the
failure surfaces only later, and only for one kind of bad input: a
world width below 10 makes `randint(10, xdim)` on line 71 raise during
terrain generation (every generation run fails), whereas a negative
world height raises no error at all — generation succeeds and simply
produces an off-screen profile. -/
theorem terrain_init_amended :
    (∀ (whe : String) (xd yd lz : ℤ), (Terrain.init whe xd yd lz).isSome = true) ∧
    (∀ (t : Terrain) (stream : List ℤ), t.xdim < 10 → t.gen stream = none) ∧
    (genTerrain 1024 (-5) negHeightStream).isSome = true := by
  refine ⟨fun whe xd yd lz => rfl, fun t stream hx => ?_, ?_⟩
  · cases stream with
    | nil => rfl
    | cons a t1 =>
      cases t1 with
      | nil => rfl
      | cons b rest =>
        simp only [Terrain.gen, genTerrain]
        rw [if_neg]
        rintro ⟨h1, h2, -⟩
        omega
  · norm_num [genTerrain, genLoop, biasCorrect, popThreshold, maxsize,
      negHeightStream]

/-- A stored `Terrain` instance with width 5, used to witness the
generation failure of the amended C9. -/
def smallTerrain : Terrain :=
  { type := ("moon"), terrain := none, landing_zones := 2, xdim := 5, ydim := 768 }

theorem terrain_init_amended_witness :
    (Terrain.init ("moon") (-5) (-5) (-1)).isSome = true ∧
    smallTerrain.gen [] = none :=
  ⟨terrain_init_amended.1 ("moon") (-5) (-5) (-1),
   terrain_init_amended.2.1 smallTerrain [] (by norm_num [smallTerrain])⟩
